import Mathlib

/-!
Verification development for `ffufai.py`, an AI-assisted wrapper around the
`ffuf` fuzzer.  The program is sequential glue: it partitions CLI arguments,
probes the target URL's headers with one HTTP HEAD request, selects one of
three LLM providers from environment variables, asks the provider for file
extensions, and invokes `ffuf` with an appended `-e` flag.

The embedding below is a shallow model of the script.  External effects
(HTTP requests, provider completions) are supplied as oracle values in a
`World` record; the Python standard library pieces the script leans on
(`json.loads` on the integer fragment of JSON, `urllib.parse.urlparse`'s
path extraction, `str.split`, `str.replace`, list indexing/slicing, dict
subscription) are modelled faithfully as executable Lean functions.
-/

namespace Ffufai

/-- The JSON values produced by `json.loads` (numbers restricted to the
integer fragment, which is all this development exercises).  Objects keep
Python `dict` semantics: keys are unique, last duplicate wins, insertion
order preserved. -/
inductive Json where
  | null : Json
  | bool : Bool → Json
  | num : Int → Json
  | str : String → Json
  | arr : List Json → Json
  | obj : List (String × Json) → Json

/-- Python exceptions relevant to the script's control flow. -/
inductive PyExn where
  | jsonDecodeError : String → PyExn
  | keyError : String → PyExn
  | typeError : String → PyExn
  | apiError : String → PyExn
deriving Repr, DecidableEq

/-- `str(e)` as interpolated into the script's error messages
(`KeyError` stringifies as the repr of the key). -/
def pyExnStr : PyExn → String
  | .jsonDecodeError m => m
  | .keyError k => "'" ++ k ++ "'"
  | .typeError m => m
  | .apiError m => m

/-- The exceptions caught by `except (json.JSONDecodeError, KeyError)` in
`main`. -/
def PyExn.catchable : PyExn → Bool
  | .jsonDecodeError _ => true
  | .keyError _ => true
  | .typeError _ => false
  | .apiError _ => false

/-! ### JSON parsing (model of `json.loads`) -/

/-- Skip JSON whitespace. -/
def jskip (cs : List Char) : List Char :=
  cs.dropWhile (fun c => c == ' ' || c == '\t' || c == '\n' || c == '\r')

/-- Parse the body of a JSON string after the opening quote, handling the
standard escapes. -/
def parseStrBody : List Char → Except String (String × List Char)
  | [] => .error "Unterminated string"
  | '"' :: rest => .ok ("", rest)
  | '\\' :: e :: rest =>
    let cont (c : Char) := do
      let (s, r) ← parseStrBody rest
      return (String.mk (c :: s.data), r)
    match e with
    | '"' => cont '"'
    | '\\' => cont '\\'
    | '/' => cont '/'
    | 'b' => cont (Char.ofNat 8)
    | 'f' => cont (Char.ofNat 12)
    | 'n' => cont '\n'
    | 'r' => cont '\r'
    | 't' => cont '\t'
    | _ => .error "Invalid \\escape"
  | c :: rest => do
    let (s, r) ← parseStrBody rest
    return (String.mk (c :: s.data), r)

/-- Digits to a natural number. -/
def digitsToNat (ds : List Char) : Nat :=
  ds.foldl (fun acc c => acc * 10 + (c.toNat - '0'.toNat)) 0

/-- Parse a JSON integer (optional leading minus, at least one digit). -/
def parseIntLit (cs : List Char) : Except String (Int × List Char) :=
  let (neg, cs') := match cs with
    | '-' :: rest => (true, rest)
    | _ => (false, cs)
  let ds := cs'.takeWhile (·.isDigit)
  if ds.isEmpty then .error "Expecting value"
  else
    let n : Int := Int.ofNat (digitsToNat ds)
    .ok (if neg then -n else n, cs'.drop ds.length)

/-- Insert into a Python dict: replace in place if the key exists, else
append (last duplicate wins, first position kept). -/
def dictInsert (fs : List (String × Json)) (k : String) (v : Json) :
    List (String × Json) :=
  if fs.any (fun p => p.1 == k) then
    fs.map (fun p => if p.1 == k then (k, v) else p)
  else fs ++ [(k, v)]

mutual

/-- Parse one JSON value; `fuel` bounds nesting depth. -/
def parseVal : Nat → List Char → Except String (Json × List Char)
  | 0, _ => .error "Nesting too deep"
  | fuel + 1, cs =>
    match jskip cs with
    | 'n' :: 'u' :: 'l' :: 'l' :: r => .ok (.null, r)
    | 't' :: 'r' :: 'u' :: 'e' :: r => .ok (.bool true, r)
    | 'f' :: 'a' :: 'l' :: 's' :: 'e' :: r => .ok (.bool false, r)
    | '"' :: r => do
      let (s, r') ← parseStrBody r
      return (.str s, r')
    | '[' :: r =>
      (match jskip r with
      | ']' :: r' => .ok (.arr [], r')
      | r' => do
        let (v, r'') ← parseVal fuel r'
        let (vs, r''') ← parseArrRest fuel r''
        return (.arr (v :: vs), r'''))
    | '{' :: r =>
      (match jskip r with
      | '}' :: r' => .ok (.obj [], r')
      | r' => do
        let (k, v, r'') ← parseMember fuel r'
        let (fs, r''') ← parseObjRest fuel r''
        return (.obj (((k, v) :: fs).foldl
          (fun d p => dictInsert d p.1 p.2) []), r'''))
    | cs' => do
      let (n, r) ← parseIntLit cs'
      return (.num n, r)

/-- Parse `, v`* `]` after the first array element. -/
def parseArrRest : Nat → List Char → Except String (List Json × List Char)
  | 0, _ => .error "Nesting too deep"
  | fuel + 1, cs =>
    match jskip cs with
    | ']' :: r => .ok ([], r)
    | ',' :: r => do
      let (v, r') ← parseVal fuel r
      let (vs, r'') ← parseArrRest fuel r'
      return (v :: vs, r'')
    | _ => .error "Expecting comma delimiter"

/-- Parse one `"key": value` member. -/
def parseMember : Nat → List Char → Except String (String × Json × List Char)
  | 0, _ => .error "Nesting too deep"
  | fuel + 1, cs =>
    match jskip cs with
    | '"' :: r => do
      let (k, r') ← parseStrBody r
      match jskip r' with
      | ':' :: r'' => do
        let (v, r''') ← parseVal fuel r''
        return (k, v, r''')
      | _ => .error "Expecting colon delimiter"
    | _ => .error "Expecting property name enclosed in double quotes"

/-- Parse `, member`* `}` after the first object member, returning the
members in source order (duplicates resolved afterwards). -/
def parseObjRest : Nat → List Char →
    Except String (List (String × Json) × List Char)
  | 0, _ => .error "Nesting too deep"
  | fuel + 1, cs =>
    match jskip cs with
    | '}' :: r => .ok ([], r)
    | ',' :: r => do
      let (k, v, r') ← parseMember fuel r
      let (fs, r'') ← parseObjRest fuel r'
      return ((k, v) :: fs, r'')
    | _ => .error "Expecting comma delimiter"

end

/-- Model of `json.loads` (on the integer fragment of JSON): parse one
value, reject trailing data. -/
def json_loads (s : String) : Except String Json :=
  match parseVal (s.length + 1) s.data with
  | .error e => .error e
  | .ok (j, rest) =>
    if (jskip rest).isEmpty then .ok j else .error "Extra data"

/-! ### Python value semantics -/

mutual

/-- Python `repr`/`print` rendering of a JSON-decoded value. -/
def pyRepr : Json → String
  | .null => "None"
  | .bool true => "True"
  | .bool false => "False"
  | .num n => toString n
  | .str s => "'" ++ s ++ "'"
  | .arr xs => "[" ++ pyReprList xs ++ "]"
  | .obj fs => "\x7b" ++ pyReprFields fs ++ "\x7d"

/-- Comma-separated reprs of list elements. -/
def pyReprList : List Json → String
  | [] => ""
  | [x] => pyRepr x
  | x :: y :: xs => pyRepr x ++ ", " ++ pyReprList (y :: xs)

/-- Comma-separated reprs of dict members. -/
def pyReprFields : List (String × Json) → String
  | [] => ""
  | [(k, v)] => "'" ++ k ++ "': " ++ pyRepr v
  | (k, v) :: f :: fs => "'" ++ k ++ "': " ++ pyRepr v ++ ", " ++ pyReprFields (f :: fs)

end

/-- Python subscription `value[key]` with a string key: succeeds only on a
dict containing the key; a dict without it raises `KeyError`, anything else
raises `TypeError`. -/
def pySubscript : Json → String → Except PyExn Json
  | .obj fs, k =>
    match fs.lookup k with
    | some v => .ok v
    | none => .error (.keyError k)
  | .str _, _ => .error (.typeError "string indices must be integers")
  | .arr _, _ => .error (.typeError "list indices must be integers or slices, not str")
  | _, _ => .error (.typeError "object is not subscriptable")

/-- Python stop-only slice `xs[:n]`: the first `n` elements when
`n ≥ 0`, all but the last `|n|` elements when `n < 0`. -/
def pySlice {α : Type} (xs : List α) (n : Int) : List α :=
  if n < 0 then xs.take (xs.length - n.natAbs) else xs.take n.toNat

/-- Extract a list of Python strings, failing if any element is not a
string. -/
def getStrs : List Json → Option (List String)
  | [] => some []
  | .str s :: rest => (getStrs rest).map (s :: ·)
  | _ :: _ => none

/-- Python `','.join(value[:n])`: on a list of strings joins the sliced
prefix; on a string joins its sliced characters; a dict cannot be sliced
and other values cannot be subscripted (`TypeError`). -/
def pySliceJoin (v : Json) (n : Int) : Except PyExn String :=
  match v with
  | .arr xs =>
    match getStrs (pySlice xs n) with
    | some ss => .ok (String.intercalate "," ss)
    | none => .error (.typeError "sequence item 0: expected str instance")
  | .str s => .ok (String.intercalate ","
      ((pySlice s.data n).map (fun c => String.mk [c])))
  | .obj _ => .error (.typeError "unhashable type: slice")
  | _ => .error (.typeError "object is not subscriptable")

/-- Python substring test `sub in s`. -/
def strContains (s sub : String) : Bool :=
  (List.range (s.data.length + 1)).any fun i => sub.data.isPrefixOf (s.data.drop i)

/-- Split a character list at every occurrence of `c` (keeping empty
pieces, like Python `str.split` with an explicit separator). -/
def splitOnChar (c : Char) : List Char → List (List Char)
  | [] => [[]]
  | a :: rest =>
    let r := splitOnChar c rest
    if a == c then [] :: r
    else
      match r with
      | [] => [[a]]
      | s :: ss => (a :: s) :: ss

/-- Python `path.split('/')`: always non-empty, `"".split('/') == ['']`. -/
def pySplitSlash (s : String) : List String :=
  (splitOnChar '/' s.data).map String.mk

/-- Python `list.index` returning the index of the first occurrence, or
`none` where Python raises `ValueError`. -/
def list_index (l : List String) (x : String) : Option Nat :=
  match l with
  | [] => none
  | a :: rest => if a == x then some 0 else (list_index rest x).map (· + 1)

/-- Model of `urllib.parse.urlparse(url).path`: drop the fragment, a valid
scheme prefix, a `//netloc` part, the query, and the `;params` of the final
path segment. -/
def urlparse_path (url : String) : String :=
  let cs := url.data.takeWhile (· != '#')
  let pre := cs.takeWhile (· != ':')
  let cs :=
    match pre with
    | [] => cs
    | c :: _ =>
      if pre.length < cs.length && c.isAlpha &&
          pre.all (fun d => d.isAlphanum || d == '+' || d == '-' || d == '.') then
        cs.drop (pre.length + 1)
      else cs
  let cs :=
    match cs with
    | '/' :: '/' :: rest => rest.dropWhile (fun c => c != '/' && c != '?')
    | _ => cs
  let cs := cs.takeWhile (· != '?')
  let lastSeg := (cs.reverse.takeWhile (· != '/')).reverse
  let cs :=
    if lastSeg.any (· == ';') then
      cs.take (cs.length - lastSeg.length) ++ lastSeg.takeWhile (· != ';')
    else cs
  String.mk cs

/-! ### The program model -/

/-- Header mapping returned by the probe. -/
abbrev HeaderMap : Type := List (String × String)

/-- The recognized CLI options (`--ffuf-path`, `--max-extensions`), as
parsed by argparse; `max_extensions` is a Python `int`. -/
structure Args where
  ffuf_path : String
  max_extensions : Int

/-- argparse defaults: `--ffuf-path ffuf`, `--max-extensions 4`. -/
def args_default : Args := ⟨"ffuf", 4⟩

/-- The three environment variables the script reads; `none` is unset. -/
structure Env where
  ollama_model : Option String
  anthropic_key : Option String
  openai_key : Option String

/-- Python truthiness of an `os.getenv` result: set and non-empty. -/
def truthy : Option String → Bool
  | none => false
  | some s => !s.isEmpty

/-- The three LLM backends. -/
inductive Provider where
  | ollama
  | anthropic
  | openai
deriving Repr, DecidableEq

/-- The `ValueError` message raised when no provider signal is present. -/
def noProviderMsg : String :=
  "No API key or Ollama model found. Please set OLLAMA_MODEL, OPENAI_API_KEY, or ANTHROPIC_API_KEY."

/-- `get_llm_provider`: fixed precedence OLLAMA_MODEL, then
ANTHROPIC_API_KEY, then OPENAI_API_KEY; else a raised `ValueError`. -/
def get_llm_provider (env : Env) : Except String (Provider × String) :=
  if truthy env.ollama_model then .ok (.ollama, env.ollama_model.getD "")
  else
    let openai_key := env.openai_key
    let anthropic_key := env.anthropic_key
    if truthy anthropic_key then .ok (.anthropic, anthropic_key.getD "")
    else if truthy openai_key then .ok (.openai, openai_key.getD "")
    else .error noProviderMsg

/-- `get_headers`: on transport success the response headers; on a
`requests.RequestException` a printed diagnostic and the degraded
single-entry mapping.  Returns (value, printed lines). -/
def get_headers (result : Except String HeaderMap) : HeaderMap × List String :=
  match result with
  | .ok h => (h, [])
  | .error e => ([("Header", "Error fetching headers.")],
      ["Error fetching headers: " ++ e])

/-- Oracle outcomes of the run's external effects: the HEAD probe and the
three possible provider calls.  `Except.error` is a raised transport-level
exception (`requests.RequestException` for ollama and the probe, a client
API error for openai/anthropic); `Except.ok` carries the response text. -/
structure World where
  head_result : Except String HeaderMap
  openai_result : Except String String
  anthropic_result : Except String String
  ollama_result : Except String String

/-- The text a provider call yields in world `w`. -/
def provider_text : Provider → World → Except String String
  | .openai, w => w.openai_result
  | .anthropic, w => w.anthropic_result
  | .ollama, w => w.ollama_result

/-- Decoding of a provider's response text in `get_ai_extensions`:
openai strips then `json.loads`; anthropic `json.loads` directly; ollama
decodes the envelope, subscripts `'response'`, and decodes the inner
string (a non-string `'response'` value makes `json.loads` raise
`TypeError`). -/
def decode_response : Provider → String → Except PyExn (Option Json)
  | .openai, t =>
    match json_loads t.trim with
    | .error e => .error (.jsonDecodeError e)
    | .ok j => .ok (some j)
  | .anthropic, t =>
    match json_loads t with
    | .error e => .error (.jsonDecodeError e)
    | .ok j => .ok (some j)
  | .ollama, t =>
    match json_loads t with
    | .error e => .error (.jsonDecodeError e)
    | .ok outer =>
      match pySubscript outer "response" with
      | .error e => .error e
      | .ok (.str s) =>
        match json_loads s with
        | .error e => .error (.jsonDecodeError e)
        | .ok j => .ok (some j)
      | .ok _ => .error (.typeError "the JSON object must be str, bytes or bytearray")

/-- `get_ai_extensions`: dispatch to the selected provider.  Only the
ollama branch guards its call with `try/except requests.RequestException`,
printing a diagnostic and returning `None`; openai/anthropic transport
errors are raised (uncaught there).  Returns (result, printed lines). -/
def get_ai_extensions (provider : Provider) (w : World) :
    Except PyExn (Option Json) × List String :=
  match provider with
  | .openai =>
    match w.openai_result with
    | .error e => (.error (.apiError e), [])
    | .ok t => (decode_response .openai t, [])
  | .anthropic =>
    match w.anthropic_result with
    | .error e => (.error (.apiError e), [])
    | .ok t => (decode_response .anthropic t, [])
  | .ollama =>
    match w.ollama_result with
    | .error e => (.ok none, ["Error communicating with Ollama: " ++ e])
    | .ok t => (decode_response .ollama t, [])

/-- How a run terminates. -/
inductive Outcome where
  | argError
  | configError (msg : String)
  | cleanReturn
  | parseError (msg : String)
  | unhandled (exn : PyExn)
  | ranChild (cmd : List String)
deriving Repr, DecidableEq

/-- Observable trace of one run of `main`. -/
structure RunResult where
  printed : List String
  warned : Bool
  probed_url : Option String
  probe_count : Nat
  provider_call_count : Nat
  headers_used : Option HeaderMap
  outcome : Outcome
deriving Repr, DecidableEq

/-- The warning printed when FUZZ is not in the final path segment. -/
def warnMsg : String :=
  "Warning: FUZZ keyword is not at the end of the URL path. Extension fuzzing may not work as expected."

/-- The error printed when `-u` or its URL is missing. -/
def argErrMsg : String := "Error: -u URL argument is required."

/-- The message printed by `main`'s `except (json.JSONDecodeError, KeyError)`. -/
def parseErrMsg (e : PyExn) : String :=
  "Error parsing AI response. Try again. Error: " ++ pyExnStr e

/-- `main`'s `try:` block after `get_ai_extensions` returns or raises:
`None` is a clean early return; caught exceptions print the parse error
and return; other exceptions propagate; otherwise print the data,
subscript `'extensions'`, slice-and-join, and run the child command. -/
def handle_ai (args : Args) (unknown : List String) (probedUrl : String)
    (pre : List String) (warned : Bool) (headers : HeaderMap)
    (ai : Except PyExn (Option Json)) : RunResult :=
  match ai with
  | .error e =>
    if e.catchable then
      ⟨pre ++ [parseErrMsg e], warned, some probedUrl, 1, 1, some headers,
        .parseError (pyExnStr e)⟩
    else ⟨pre, warned, some probedUrl, 1, 1, some headers, .unhandled e⟩
  | .ok none =>
    ⟨pre, warned, some probedUrl, 1, 1, some headers, .cleanReturn⟩
  | .ok (some j) =>
    let pre := pre ++ [pyRepr j]
    match pySubscript j "extensions" with
    | .error e =>
      if e.catchable then
        ⟨pre ++ [parseErrMsg e], warned, some probedUrl, 1, 1, some headers,
          .parseError (pyExnStr e)⟩
      else ⟨pre, warned, some probedUrl, 1, 1, some headers, .unhandled e⟩
    | .ok v =>
      match pySliceJoin v args.max_extensions with
      | .error e =>
        if e.catchable then
          ⟨pre ++ [parseErrMsg e], warned, some probedUrl, 1, 1, some headers,
            .parseError (pyExnStr e)⟩
        else ⟨pre, warned, some probedUrl, 1, 1, some headers, .unhandled e⟩
      | .ok extensions =>
        ⟨pre, warned, some probedUrl, 1, 1, some headers,
          .ranChild ([args.ffuf_path] ++ unknown ++ ["-e", extensions])⟩

/-- `main` after the URL has been located: warn if FUZZ is not in the final
path segment, probe headers of the URL with FUZZ removed, select the
provider (a failure here is the raised `ValueError`), call it, and handle
the result. -/
def run_after_url (args : Args) (unknown : List String) (url : String)
    (env : Env) (w : World) : RunResult :=
  let path_parts := pySplitSlash (urlparse_path url)
  let warned := !(strContains (path_parts.getLastD "") "FUZZ")
  let warnings := if warned then [warnMsg] else []
  let base_url := url.replace "FUZZ" ""
  let probe := get_headers w.head_result
  match get_llm_provider env with
  | .error msg =>
    ⟨warnings ++ probe.2, warned, some base_url, 1, 0, some probe.1,
      .configError msg⟩
  | .ok (provider, _) =>
    let ai := get_ai_extensions provider w
    handle_ai args unknown base_url (warnings ++ probe.2 ++ ai.2) warned
      probe.1 ai.1

/-- `find_u`: `unknown.index('-u') + 1` then `unknown[url_index]`; `none`
models the `ValueError`/`IndexError` caught in `main`. -/
def find_u (unknown : List String) : Option String :=
  match list_index unknown "-u" with
  | none => none
  | some i => unknown.get? (i + 1)

/-- The whole of `main` as a function of the parsed args, the pass-through
tokens, the environment and the external-effect oracles. -/
def main (args : Args) (unknown : List String) (env : Env) (w : World) :
    RunResult :=
  match find_u unknown with
  | none => ⟨[argErrMsg], false, none, 0, 0, none, .argError⟩
  | some url => run_after_url args unknown url env w

/-! ### Helper lemmas -/

/-- A successful provider call hands its text to the provider-specific
decoder and prints nothing. -/
theorem get_ai_ok (p : Provider) (w : World) (t : String)
    (h : provider_text p w = .ok t) :
    get_ai_extensions p w = (decode_response p t, []) := by
  cases p <;> simp only [provider_text] at h <;> simp [get_ai_extensions, h]

/-- Extracting strings from a list of string values succeeds. -/
theorem getStrs_map (xs : List String) : getStrs (xs.map Json.str) = some xs := by
  induction xs with
  | nil => rfl
  | cons a l ih => simp [getStrs, ih]

/-- Slicing commutes with mapping. -/
theorem pySlice_map {α β : Type} (f : α → β) (xs : List α) (n : Int) :
    pySlice (xs.map f) n = (pySlice xs n).map f := by
  unfold pySlice
  split <;> simp

/-- Slice-and-join on a list of string values is the comma join of the
sliced strings. -/
theorem pySliceJoin_strs (xs : List String) (n : Int) :
    pySliceJoin (.arr (xs.map Json.str)) n =
      .ok (String.intercalate "," (pySlice xs n)) := by
  simp [pySliceJoin, pySlice_map, getStrs_map]

/-- `list.index` fails exactly like Python's `ValueError` when the element
is absent. -/
theorem list_index_eq_none_of_not_mem {l : List String} {x : String}
    (h : x ∉ l) : list_index l x = none := by
  induction l with
  | nil => rfl
  | cons a rest ih =>
    simp only [List.mem_cons, not_or] at h
    simp [list_index, ih h.2, Ne.symm h.1]

/-- `handle_ai` preserves the prefix of printed lines and the bookkeeping
fields whatever the provider result was. -/
theorem handle_ai_shape (args : Args) (unknown : List String) (purl : String)
    (pre : List String) (warned : Bool) (headers : HeaderMap)
    (ai : Except PyExn (Option Json)) :
    ∃ rest, handle_ai args unknown purl pre warned headers ai =
      ⟨pre ++ rest, warned, some purl, 1, 1, some headers,
        (handle_ai args unknown purl pre warned headers ai).outcome⟩ := by
  rcases ai with e | j
  · by_cases hc : e.catchable
    · exact ⟨[parseErrMsg e], by simp [handle_ai, hc]⟩
    · exact ⟨[], by simp [handle_ai, hc]⟩
  · rcases j with _ | j
    · exact ⟨[], by simp [handle_ai]⟩
    · cases hsub : pySubscript j "extensions" with
      | error e =>
        by_cases hc : e.catchable
        · exact ⟨[pyRepr j, parseErrMsg e], by simp [handle_ai, hsub, hc]⟩
        · exact ⟨[pyRepr j], by simp [handle_ai, hsub, hc]⟩
      | ok v =>
        cases hjoin : pySliceJoin v args.max_extensions with
        | error e =>
          by_cases hc : e.catchable
          · exact ⟨[pyRepr j, parseErrMsg e], by simp [handle_ai, hsub, hjoin, hc]⟩
          · exact ⟨[pyRepr j], by simp [handle_ai, hsub, hjoin, hc]⟩
        | ok s => exact ⟨[pyRepr j], by simp [handle_ai, hsub, hjoin]⟩

/-- After the URL is located, a run always probes once, records the probed
URL (FUZZ removed), uses the probed headers, and prints the warning and
probe diagnostics first; the provider is called unless selection failed. -/
theorem run_after_url_shape (args : Args) (unknown : List String)
    (url : String) (env : Env) (w : World) :
    ∃ rest, run_after_url args unknown url env w =
      ⟨(if !(strContains ((pySplitSlash (urlparse_path url)).getLastD "") "FUZZ")
          then [warnMsg] else []) ++ (get_headers w.head_result).2 ++ rest,
        !(strContains ((pySplitSlash (urlparse_path url)).getLastD "") "FUZZ"),
        some (url.replace "FUZZ" ""), 1,
        (run_after_url args unknown url env w).provider_call_count,
        some (get_headers w.head_result).1,
        (run_after_url args unknown url env w).outcome⟩ := by
  cases hprov : get_llm_provider env with
  | error msg => exact ⟨[], by simp [run_after_url, hprov]⟩
  | ok pk =>
    obtain ⟨p, k⟩ := pk
    have heq : run_after_url args unknown url env w =
        handle_ai args unknown (url.replace "FUZZ" "")
          ((if !(strContains ((pySplitSlash (urlparse_path url)).getLastD "")
              "FUZZ") then [warnMsg] else []) ++
            (get_headers w.head_result).2 ++ (get_ai_extensions p w).2)
          (!(strContains ((pySplitSlash (urlparse_path url)).getLastD "")
            "FUZZ"))
          (get_headers w.head_result).1 (get_ai_extensions p w).1 := by
      simp [run_after_url, hprov]
    obtain ⟨rest, hshape⟩ := handle_ai_shape args unknown (url.replace "FUZZ" "")
      ((if !(strContains ((pySplitSlash (urlparse_path url)).getLastD "")
          "FUZZ") then [warnMsg] else []) ++
        (get_headers w.head_result).2 ++ (get_ai_extensions p w).2)
      (!(strContains ((pySplitSlash (urlparse_path url)).getLastD "") "FUZZ"))
      (get_headers w.head_result).1 (get_ai_extensions p w).1
    rw [heq, hshape]
    exact ⟨(get_ai_extensions p w).2 ++ rest, by simp⟩

/-! ### Concrete fixtures for witnesses and counterexamples -/

/-- Environment with none of the three provider signals. -/
def envNone : Env := ⟨none, none, none⟩

/-- Environment selecting the ollama provider. -/
def envOllama : Env := ⟨some "llama3", none, none⟩

/-- Environment selecting the anthropic provider. -/
def envAnthropic : Env := ⟨none, some "anth-key", none⟩

/-- Environment selecting the openai provider. -/
def envOpenai : Env := ⟨none, none, some "oai-key"⟩

/-- A provider response carrying four extensions. -/
def extText : String :=
  "\x7b\"extensions\": [\".pdf\", \".ppt\", \".pptx\", \".doc\"]\x7d"

/-- An ollama envelope whose `response` field carries one extension. -/
def ollamaText : String :=
  "\x7b\"response\": \"\x7b\\\"extensions\\\": [\\\".js\\\"]\x7d\"\x7d"

/-- A world where every external call succeeds. -/
def worldOk : World :=
  ⟨.ok [("Content-Type", "application/pdf")], .ok extText, .ok extText,
    .ok ollamaText⟩

/-- A pass-through token list with a well-formed `-u` URL. -/
def unknownOk : List String := ["-u", "https://example.com/presentations/FUZZ"]

/-- A world whose header probe raises a transport error. -/
def worldHeadFail : World :=
  ⟨.error "Connection refused", .ok extText, .ok extText, .ok ollamaText⟩

/-- A world whose ollama call raises a `requests.RequestException`. -/
def worldOllamaFail : World :=
  ⟨.ok [("Content-Type", "application/pdf")], .ok extText, .ok extText,
    .error "connection refused"⟩

/-- A world whose openai call raises a client API error. -/
def worldOpenaiFail : World :=
  ⟨.ok [("Content-Type", "application/pdf")], .error "Connection error.",
    .ok extText, .ok ollamaText⟩

/-- A world whose anthropic call answers with a JSON list, not an object. -/
def worldBadList : World :=
  ⟨.ok [("Content-Type", "application/pdf")], .ok extText, .ok "[1, 2]",
    .ok ollamaText⟩

/-- A world whose anthropic call answers with text that is not JSON. -/
def worldNotJson : World :=
  ⟨.ok [("Content-Type", "application/pdf")], .ok extText, .ok "not json",
    .ok ollamaText⟩

/-! ### Claims -/

/-- C3: provider selection checks the three environment signals in fixed
precedence — OLLAMA_MODEL first (local model), else ANTHROPIC_API_KEY
(provider B), else OPENAI_API_KEY (provider A), else the configuration
error; the selected provider carries the model identifier resp. the
credential, and exactly one provider is selected. -/
theorem c3_provider_precedence (env : Env) :
    (truthy env.ollama_model = true →
      get_llm_provider env = .ok (.ollama, env.ollama_model.getD "")) ∧
    (truthy env.ollama_model = false → truthy env.anthropic_key = true →
      get_llm_provider env = .ok (.anthropic, env.anthropic_key.getD "")) ∧
    (truthy env.ollama_model = false → truthy env.anthropic_key = false →
      truthy env.openai_key = true →
      get_llm_provider env = .ok (.openai, env.openai_key.getD "")) ∧
    (truthy env.ollama_model = false → truthy env.anthropic_key = false →
      truthy env.openai_key = false →
      get_llm_provider env = .error noProviderMsg) := by
  refine ⟨?_, ?_, ?_, ?_⟩
  · intro h1
    simp [get_llm_provider, h1]
  · intro h1 h2
    simp [get_llm_provider, h1, h2]
  · intro h1 h2 h3
    simp [get_llm_provider, h1, h2, h3]
  · intro h1 h2 h3
    simp [get_llm_provider, h1, h2, h3]

/-- C3 witness: with all three signals set, the local-model provider wins
and carries the model identifier. -/
theorem c3_witness :
    get_llm_provider ⟨some "llama3", some "anth-key", some "oai-key"⟩ =
      .ok (.ollama, "llama3") :=
  (c3_provider_precedence ⟨some "llama3", some "anth-key", some "oai-key"⟩).1 rfl

/-- C1 (amended): with none of the three signals truthy, a run that finds
its URL terminates with the raised configuration error and never calls a
provider — but the header probe has already been attempted at that point. -/
theorem c1_config_error_after_probe (args : Args) (unknown : List String)
    (env : Env) (w : World) (url : String)
    (hurl : find_u unknown = some url)
    (h1 : truthy env.ollama_model = false)
    (h2 : truthy env.anthropic_key = false)
    (h3 : truthy env.openai_key = false) :
    (main args unknown env w).outcome = .configError noProviderMsg ∧
    (main args unknown env w).provider_call_count = 0 ∧
    (main args unknown env w).probe_count = 1 := by
  have hprov : get_llm_provider env = .error noProviderMsg := by
    simp [get_llm_provider, h1, h2, h3]
  simp [main, hurl, run_after_url, hprov]

/-- C1 witness: the amended statement at a concrete run. -/
theorem c1_witness :
    (main args_default ["-u", "https://example.com/FUZZ"] envNone
      worldOk).outcome = .configError noProviderMsg ∧
    (main args_default ["-u", "https://example.com/FUZZ"] envNone
      worldOk).provider_call_count = 0 ∧
    (main args_default ["-u", "https://example.com/FUZZ"] envNone
      worldOk).probe_count = 1 :=
  c1_config_error_after_probe args_default _ envNone worldOk
    "https://example.com/FUZZ" rfl rfl rfl rfl

/-- C1 counterexample: the claim says the configuration error precedes any
outbound HTTP request, but in this run with zero provider signals the
header probe is attempted (count 1) before the configuration error is
raised. -/
theorem c1_counterexample :
    (main args_default ["-u", "https://example.com/FUZZ"] envNone
      worldOk).probe_count = 1 ∧
    (main args_default ["-u", "https://example.com/FUZZ"] envNone
      worldOk).outcome = .configError noProviderMsg := by
  constructor <;> rfl

/-- C2: a run that reaches the child invocation with a parsed response
whose `extensions` key holds a string list invokes the child with the
fuzzer path, then the entire original pass-through list in order, then
`-e`, then the comma join of the first `max_extensions` entries in
provider-given order — no deduplication, no validation of the entries. -/
theorem c2_child_command (args : Args) (unknown : List String) (env : Env)
    (w : World) (p : Provider) (key url t : String) (j : Json)
    (xs : List String)
    (hurl : find_u unknown = some url)
    (hprov : get_llm_provider env = .ok (p, key))
    (htext : provider_text p w = .ok t)
    (hdec : decode_response p t = .ok (some j))
    (hext : pySubscript j "extensions" = .ok (.arr (xs.map Json.str)))
    (hn : 0 ≤ args.max_extensions) :
    (main args unknown env w).outcome =
      .ranChild ([args.ffuf_path] ++ unknown ++
        ["-e", String.intercalate "," (xs.take args.max_extensions.toNat)]) := by
  have hai := get_ai_ok p w t htext
  have hjoin : pySliceJoin (.arr (xs.map Json.str)) args.max_extensions =
      .ok (String.intercalate "," (xs.take args.max_extensions.toNat)) := by
    rw [pySliceJoin_strs]
    simp [pySlice, not_lt.mpr hn]
  simp [main, hurl, run_after_url, hprov, hai, handle_ai, hdec, hext, hjoin]

/-- C2 witness: for the response `{"extensions": [".pdf", ".ppt", ".pptx",
".doc"]}` and `--max-extensions 2` the child command ends in
`-e .pdf,.ppt`. -/
theorem c2_witness :
    (main ⟨"ffuf", 2⟩ unknownOk envAnthropic worldOk).outcome =
      .ranChild ["ffuf", "-u", "https://example.com/presentations/FUZZ",
        "-e", ".pdf,.ppt"] :=
  c2_child_command ⟨"ffuf", 2⟩ unknownOk envAnthropic worldOk .anthropic
    "anth-key" "https://example.com/presentations/FUZZ" extText
    (.obj [("extensions", .arr [.str ".pdf", .str ".ppt", .str ".pptx",
      .str ".doc"])])
    [".pdf", ".ppt", ".pptx", ".doc"] rfl rfl rfl rfl rfl (by decide)

/-- C10: when the truncated extension list is empty (for example
`--max-extensions 0` or an empty provider list) the run still invokes the
child with `-e` and the empty string; and a negative `--max-extensions n`
follows Python slice semantics, keeping all but the last `|n|` entries. -/
theorem c10_empty_and_negative_truncation (args : Args)
    (unknown : List String) (env : Env) (w : World) (p : Provider)
    (key url t : String) (j : Json) (xs : List String)
    (hurl : find_u unknown = some url)
    (hprov : get_llm_provider env = .ok (p, key))
    (htext : provider_text p w = .ok t)
    (hdec : decode_response p t = .ok (some j))
    (hext : pySubscript j "extensions" = .ok (.arr (xs.map Json.str))) :
    (pySlice xs args.max_extensions = [] →
      (main args unknown env w).outcome =
        .ranChild ([args.ffuf_path] ++ unknown ++ ["-e", ""])) ∧
    (args.max_extensions < 0 →
      (main args unknown env w).outcome =
        .ranChild ([args.ffuf_path] ++ unknown ++
          ["-e", String.intercalate ","
            (xs.take (xs.length - args.max_extensions.natAbs))])) := by
  have hai := get_ai_ok p w t htext
  constructor
  · intro hempty
    have hjoin : pySliceJoin (.arr (xs.map Json.str)) args.max_extensions =
        .ok "" := by
      rw [pySliceJoin_strs, hempty]
      rfl
    simp [main, hurl, run_after_url, hprov, hai, handle_ai, hdec, hext, hjoin]
  · intro hneg
    have hjoin : pySliceJoin (.arr (xs.map Json.str)) args.max_extensions =
        .ok (String.intercalate ","
          (xs.take (xs.length - args.max_extensions.natAbs))) := by
      rw [pySliceJoin_strs]
      simp [pySlice, hneg]
    simp [main, hurl, run_after_url, hprov, hai, handle_ai, hdec, hext, hjoin]

/-- C10 witness: `--max-extensions 0` still runs the child with an empty
`-e` value. -/
theorem c10_witness :
    (main ⟨"ffuf", 0⟩ unknownOk envAnthropic worldOk).outcome =
      .ranChild ["ffuf", "-u", "https://example.com/presentations/FUZZ",
        "-e", ""] :=
  (c10_empty_and_negative_truncation ⟨"ffuf", 0⟩ unknownOk envAnthropic
    worldOk .anthropic "anth-key" "https://example.com/presentations/FUZZ"
    extText
    (.obj [("extensions", .arr [.str ".pdf", .str ".ppt", .str ".pptx",
      .str ".doc"])])
    [".pdf", ".ppt", ".pptx", ".doc"] rfl rfl rfl rfl rfl).1 rfl

/-- C4 (amended): when the pass-through list has no `-u` token, or the
first `-u` token is its last token, the run prints the argument error and
terminates early — no probe, no provider call, no child process, and no
exception escapes. -/
theorem c4_missing_url_error (args : Args) (env : Env) (w : World)
    (unknown : List String)
    (h : "-u" ∉ unknown ∨
      ∃ i, list_index unknown "-u" = some i ∧ i + 1 = unknown.length) :
    main args unknown env w =
      ⟨[argErrMsg], false, none, 0, 0, none, .argError⟩ := by
  have hfind : find_u unknown = none := by
    rcases h with h | ⟨i, hi, hlen⟩
    · simp [find_u, list_index_eq_none_of_not_mem h]
    · simp only [find_u, hi]
      exact List.get?_eq_none.mpr (le_of_eq hlen.symm)
  simp [main, hfind]

/-- C4 witness: a token list without `-u` ends in the argument error. -/
theorem c4_witness :
    main args_default ["-w", "wordlist.txt"] envOllama worldOk =
      ⟨[argErrMsg], false, none, 0, 0, none, .argError⟩ :=
  c4_missing_url_error args_default envOllama worldOk ["-w", "wordlist.txt"]
    (Or.inl (by decide))

/-- C4 counterexample: in `["-u", url, "-u"]` the last token is `-u`, yet
the claim fails — the first `-u` supplies a URL, no error is printed, and
the child process is invoked. -/
theorem c4_counterexample :
    ["-u", "https://example.com/FUZZ", "-u"].getLast? = some "-u" ∧
    (main args_default ["-u", "https://example.com/FUZZ", "-u"] envOllama
        worldOk).outcome =
      .ranChild ["ffuf", "-u", "https://example.com/FUZZ", "-u", "-e",
        ".js"] ∧
    argErrMsg ∉ (main args_default ["-u", "https://example.com/FUZZ", "-u"]
      envOllama worldOk).printed := by
  refine ⟨rfl, by decide, by decide⟩

/-- C5: a header-probe transport failure is caught, a diagnostic is
printed, and exactly the degraded single-entry mapping is passed
downstream; the run continues (the probe is attempted exactly once). -/
theorem c5_probe_failure_degraded (args : Args) (unknown : List String)
    (env : Env) (w : World) (url e : String)
    (hurl : find_u unknown = some url)
    (hhead : w.head_result = .error e) :
    (main args unknown env w).headers_used =
      some [("Header", "Error fetching headers.")] ∧
    ("Error fetching headers: " ++ e) ∈ (main args unknown env w).printed ∧
    (main args unknown env w).probe_count = 1 := by
  obtain ⟨rest, hshape⟩ := run_after_url_shape args unknown url env w
  have hm : main args unknown env w = run_after_url args unknown url env w := by
    simp [main, hurl]
  rw [hm, hshape]
  simp [get_headers, hhead]

/-- C5 witness: the degraded mapping at a concrete failed probe. -/
theorem c5_witness :
    (main args_default unknownOk envAnthropic worldHeadFail).headers_used =
      some [("Header", "Error fetching headers.")] ∧
    ("Error fetching headers: " ++ "Connection refused") ∈
      (main args_default unknownOk envAnthropic worldHeadFail).printed ∧
    (main args_default unknownOk envAnthropic worldHeadFail).probe_count = 1 :=
  c5_probe_failure_degraded args_default unknownOk envAnthropic worldHeadFail
    "https://example.com/presentations/FUZZ" "Connection refused" rfl rfl

/-- When provider selection succeeds, exactly one provider call is made. -/
theorem run_after_url_call_count_ok (args : Args) (unknown : List String)
    (url : String) (env : Env) (w : World) (p : Provider) (key : String)
    (hprov : get_llm_provider env = .ok (p, key)) :
    (run_after_url args unknown url env w).provider_call_count = 1 := by
  have heq : run_after_url args unknown url env w =
      handle_ai args unknown (url.replace "FUZZ" "")
        ((if !(strContains ((pySplitSlash (urlparse_path url)).getLastD "")
            "FUZZ") then [warnMsg] else []) ++
          (get_headers w.head_result).2 ++ (get_ai_extensions p w).2)
        (!(strContains ((pySplitSlash (urlparse_path url)).getLastD "")
          "FUZZ"))
        (get_headers w.head_result).1 (get_ai_extensions p w).1 := by
    simp [run_after_url, hprov]
  obtain ⟨rest, hshape⟩ := handle_ai_shape args unknown (url.replace "FUZZ" "")
    ((if !(strContains ((pySplitSlash (urlparse_path url)).getLastD "")
        "FUZZ") then [warnMsg] else []) ++
      (get_headers w.head_result).2 ++ (get_ai_extensions p w).2)
    (!(strContains ((pySplitSlash (urlparse_path url)).getLastD "") "FUZZ"))
    (get_headers w.head_result).1 (get_ai_extensions p w).1
  rw [heq, hshape]

/-- C8: when the final path segment of the target URL does not contain the
case-sensitive substring FUZZ, the run prints the warning but still probes
the headers and (once a provider is selected) queries the provider; when
the final segment does contain FUZZ, no warning is printed. -/
theorem c8_fuzz_warning (args : Args) (unknown : List String) (env : Env)
    (w : World) (url : String)
    (hurl : find_u unknown = some url) :
    (strContains ((pySplitSlash (urlparse_path url)).getLastD "") "FUZZ"
        = false →
      (main args unknown env w).warned = true ∧
      warnMsg ∈ (main args unknown env w).printed ∧
      (main args unknown env w).probe_count = 1 ∧
      (∀ p key, get_llm_provider env = .ok (p, key) →
        (main args unknown env w).provider_call_count = 1)) ∧
    (strContains ((pySplitSlash (urlparse_path url)).getLastD "") "FUZZ"
        = true →
      (main args unknown env w).warned = false) := by
  obtain ⟨rest, hshape⟩ := run_after_url_shape args unknown url env w
  have hm : main args unknown env w = run_after_url args unknown url env w := by
    simp [main, hurl]
  constructor
  · intro hno
    rw [List.getLastD_eq_getLast?] at hno
    refine ⟨?_, ?_, ?_, ?_⟩
    · rw [hm, hshape]
      simp [hno]
    · rw [hm, hshape]
      simp [hno]
    · rw [hm, hshape]
    · intro p key hprov
      rw [hm]
      exact run_after_url_call_count_ok args unknown url env w p key hprov
  · intro hyes
    rw [List.getLastD_eq_getLast?] at hyes
    rw [hm, hshape]
    simp [hyes]

/-- C8 witness: a URL whose final segment is `dir` warns yet probes and
queries; membership of the warning among the printed lines is exhibited. -/
theorem c8_witness :
    (main args_default ["-u", "https://example.com/FUZZ/dir"] envAnthropic
      worldOk).warned = true ∧
    warnMsg ∈ (main args_default ["-u", "https://example.com/FUZZ/dir"]
      envAnthropic worldOk).printed ∧
    (main args_default ["-u", "https://example.com/FUZZ/dir"] envAnthropic
      worldOk).probe_count = 1 ∧
    (main args_default ["-u", "https://example.com/FUZZ/dir"] envAnthropic
      worldOk).provider_call_count = 1 := by
  obtain ⟨h1, h2, h3, h4⟩ :=
    (c8_fuzz_warning args_default ["-u", "https://example.com/FUZZ/dir"]
      envAnthropic worldOk "https://example.com/FUZZ/dir" rfl).1 rfl
  exact ⟨h1, h2, h3, h4 .anthropic "anth-key" rfl⟩

/-- C7: an ollama transport failure is caught inside the suggester, a
diagnostic is printed, the absent result makes the caller terminate the
run cleanly — no child process, and an exit path distinct from the
parse-error path. -/
theorem c7_ollama_transport_failure (args : Args) (unknown : List String)
    (env : Env) (w : World) (url m e : String)
    (hurl : find_u unknown = some url)
    (hprov : get_llm_provider env = .ok (.ollama, m))
    (holl : w.ollama_result = .error e) :
    (main args unknown env w).outcome = .cleanReturn ∧
    ("Error communicating with Ollama: " ++ e) ∈
      (main args unknown env w).printed ∧
    (∀ cmd, (main args unknown env w).outcome ≠ .ranChild cmd) ∧
    (∀ msg, (main args unknown env w).outcome ≠ .parseError msg) := by
  have hai : get_ai_extensions .ollama w =
      (.ok none, ["Error communicating with Ollama: " ++ e]) := by
    simp [get_ai_extensions, holl]
  simp [main, hurl, run_after_url, hprov, hai, handle_ai]

/-- C7 witness: the clean no-child exit at a concrete failed ollama call. -/
theorem c7_witness :
    (main args_default unknownOk envOllama worldOllamaFail).outcome =
      .cleanReturn ∧
    ("Error communicating with Ollama: " ++ "connection refused") ∈
      (main args_default unknownOk envOllama worldOllamaFail).printed ∧
    (∀ cmd, (main args_default unknownOk envOllama worldOllamaFail).outcome ≠
      .ranChild cmd) ∧
    (∀ msg, (main args_default unknownOk envOllama worldOllamaFail).outcome ≠
      .parseError msg) :=
  c7_ollama_transport_failure args_default unknownOk envOllama worldOllamaFail
    "https://example.com/presentations/FUZZ" "llama3" "connection refused"
    rfl rfl rfl

/-- C6 (amended): when a provider response fails JSON decoding, or decodes
to a JSON object lacking the `extensions` key, the run prints the
parse-error message carrying the underlying error and terminates without
invoking the child process.  (A response that decodes to a non-object
value instead escapes as an unhandled `TypeError` — see the
counterexample.) -/
theorem c6_parse_error_termination (args : Args) (unknown : List String)
    (env : Env) (w : World) (p : Provider) (key url t : String)
    (hurl : find_u unknown = some url)
    (hprov : get_llm_provider env = .ok (p, key))
    (htext : provider_text p w = .ok t) :
    (∀ e, decode_response p t = .error (.jsonDecodeError e) →
      (main args unknown env w).outcome = .parseError e ∧
      parseErrMsg (.jsonDecodeError e) ∈ (main args unknown env w).printed ∧
      ∀ cmd, (main args unknown env w).outcome ≠ .ranChild cmd) ∧
    (∀ fs, decode_response p t = .ok (some (.obj fs)) →
      fs.lookup "extensions" = none →
      (main args unknown env w).outcome = .parseError "'extensions'" ∧
      parseErrMsg (.keyError "extensions") ∈ (main args unknown env w).printed ∧
      ∀ cmd, (main args unknown env w).outcome ≠ .ranChild cmd) := by
  have hai := get_ai_ok p w t htext
  constructor
  · intro e hdec
    simp [main, hurl, run_after_url, hprov, hai, handle_ai, hdec,
      PyExn.catchable, parseErrMsg, pyExnStr]
  · intro fs hdec hlook
    have hsub : pySubscript (.obj fs) "extensions" =
        .error (.keyError "extensions") := by
      simp [pySubscript, hlook]
    simp [main, hurl, run_after_url, hprov, hai, handle_ai, hdec, hsub,
      PyExn.catchable, parseErrMsg, pyExnStr]

/-- C6 witness: a response that is not valid JSON ends in the parse-error
exit with the decoder's message, and no child command. -/
theorem c6_witness :
    (main args_default unknownOk envAnthropic worldNotJson).outcome =
      .parseError "Expecting value" ∧
    parseErrMsg (.jsonDecodeError "Expecting value") ∈
      (main args_default unknownOk envAnthropic worldNotJson).printed ∧
    ∀ cmd, (main args_default unknownOk envAnthropic worldNotJson).outcome ≠
      .ranChild cmd :=
  (c6_parse_error_termination args_default unknownOk envAnthropic worldNotJson
    .anthropic "anth-key" "https://example.com/presentations/FUZZ" "not json"
    rfl rfl rfl).1 "Expecting value" rfl

/-- C6 counterexample: the provider answer `[1, 2]` is valid JSON lacking
the `extensions` key, yet the run prints no parse-error message — it
prints only the repr of the data and dies with an uncaught `TypeError`
(not via the parse-error exit). -/
theorem c6_counterexample :
    (main args_default unknownOk envAnthropic worldBadList).outcome =
      .unhandled (.typeError
        "list indices must be integers or slices, not str") ∧
    (main args_default unknownOk envAnthropic worldBadList).printed =
      ["[1, 2]"] ∧
    ∀ msg, (main args_default unknownOk envAnthropic worldBadList).outcome ≠
      .parseError msg := by
  refine ⟨rfl, by decide, ?_⟩
  intro msg hmsg
  rw [show (main args_default unknownOk envAnthropic worldBadList).outcome =
    .unhandled (.typeError "list indices must be integers or slices, not str")
    from rfl] at hmsg
  simp at hmsg

/-- C9 (amended): failures of the header probe are converted into the
degraded mapping and local-model transport failures into a clean early
termination, but transport failures of the two key-based provider calls
escape as unhandled exceptions — the provider-selection configuration
error is not the only unhandled termination. -/
theorem c9_error_containment (args : Args) (unknown : List String)
    (env : Env) (w : World) (url : String)
    (hurl : find_u unknown = some url) :
    (∀ e, w.head_result = .error e →
      (main args unknown env w).headers_used =
        some [("Header", "Error fetching headers.")]) ∧
    (∀ m e, get_llm_provider env = .ok (.ollama, m) →
      w.ollama_result = .error e →
      (main args unknown env w).outcome = .cleanReturn) ∧
    (∀ key e, get_llm_provider env = .ok (.openai, key) →
      w.openai_result = .error e →
      (main args unknown env w).outcome = .unhandled (.apiError e)) ∧
    (∀ key e, get_llm_provider env = .ok (.anthropic, key) →
      w.anthropic_result = .error e →
      (main args unknown env w).outcome = .unhandled (.apiError e)) := by
  have hm : main args unknown env w = run_after_url args unknown url env w := by
    simp [main, hurl]
  refine ⟨?_, ?_, ?_, ?_⟩
  · intro e hhead
    obtain ⟨rest, hshape⟩ := run_after_url_shape args unknown url env w
    rw [hm, hshape]
    simp [get_headers, hhead]
  · intro m e hprov holl
    have hai : get_ai_extensions .ollama w =
        (.ok none, ["Error communicating with Ollama: " ++ e]) := by
      simp [get_ai_extensions, holl]
    rw [hm]
    simp [run_after_url, hprov, hai, handle_ai]
  · intro key e hprov hoai
    have hai : get_ai_extensions .openai w = (.error (.apiError e), []) := by
      simp [get_ai_extensions, hoai]
    rw [hm]
    simp [run_after_url, hprov, hai, handle_ai, PyExn.catchable]
  · intro key e hprov hant
    have hai : get_ai_extensions .anthropic w = (.error (.apiError e), []) := by
      simp [get_ai_extensions, hant]
    rw [hm]
    simp [run_after_url, hprov, hai, handle_ai, PyExn.catchable]

/-- C9 witness: the probe-failure clause of the amended statement at a
concrete run. -/
theorem c9_witness :
    (main args_default unknownOk envAnthropic worldHeadFail).headers_used =
      some [("Header", "Error fetching headers.")] :=
  (c9_error_containment args_default unknownOk envAnthropic worldHeadFail
    "https://example.com/presentations/FUZZ" rfl).1 "Connection refused" rfl

/-- C9 counterexample: an openai transport failure escapes the run as an
unhandled exception that is not the provider-selection configuration
error, contradicting the claim that provider-call failures never escape. -/
theorem c9_counterexample :
    (main args_default unknownOk envOpenai worldOpenaiFail).outcome =
      .unhandled (.apiError "Connection error.") ∧
    ∀ msg, (main args_default unknownOk envOpenai worldOpenaiFail).outcome ≠
      .configError msg := by
  refine ⟨rfl, ?_⟩
  intro msg hmsg
  rw [show (main args_default unknownOk envOpenai worldOpenaiFail).outcome =
    .unhandled (.apiError "Connection error.") from rfl] at hmsg
  simp at hmsg

end Ffufai
